import Mathlib

/-!
Shallow embedding of `src/docs/preparation.py` (class `EquipmentOptimizationModel`).

Numeric values are modelled as rationals (`ℚ`).  Python dictionaries are
modelled as association lists in the source's insertion order.  A raised
`KeyError` (the only failure the code can produce, on an equipment key that is
in neither equipment group) is modelled as `Except.error (PrepError.UnknownItem key)`;
a normal return is `Except.ok`.  The external `scipy.optimize.linprog` call is
modelled as an abstract solver parameter receiving exactly the data the code
passes (objective coefficients, the single budget constraint row, the budget
bound, and the per-item integer bounds) and optionally returning a solution
vector; `None` models `result.success == False`.
-/

/-- One equipment record, mirroring the attribute dictionaries in
`EquipmentOptimizationModel.__init__`. -/
structure Equipment where
  name : String
  acquisition_cost : ℚ
  maintenance_cost : ℚ
  readiness_cost : ℚ
  usage_cost_per_hour : ℚ
  efficiency_gain : ℚ
  response_time_reduction : ℚ
  lifespan : ℚ
  quantity_min : ℤ
  quantity_max : ℤ
deriving DecidableEq

def backup_drone : Equipment :=
  { name := "备用无人机", acquisition_cost := 30000, maintenance_cost := 4500,
    readiness_cost := 2000, usage_cost_per_hour := 500, efficiency_gain := 0.85,
    response_time_reduction := 0.7, lifespan := 3, quantity_min := 1, quantity_max := 5 }

def thermal_camera : Equipment :=
  { name := "热成像相机", acquisition_cost := 50000, maintenance_cost := 2500,
    readiness_cost := 1000, usage_cost_per_hour := 100, efficiency_gain := 0.65,
    response_time_reduction := 0.3, lifespan := 5, quantity_min := 0, quantity_max := 3 }

def gps_tracker : Equipment :=
  { name := "GPS追踪器", acquisition_cost := 2000, maintenance_cost := 300,
    readiness_cost := 200, usage_cost_per_hour := 50, efficiency_gain := 0.75,
    response_time_reduction := 0.6, lifespan := 2, quantity_min := 2, quantity_max := 10 }

def satellite_comm : Equipment :=
  { name := "卫星通信设备", acquisition_cost := 15000, maintenance_cost := 3000,
    readiness_cost := 1500, usage_cost_per_hour := 200, efficiency_gain := 0.55,
    response_time_reduction := 0.4, lifespan := 4, quantity_min := 1, quantity_max := 3 }

def rf_detector : Equipment :=
  { name := "射频信号探测器", acquisition_cost := 20000, maintenance_cost := 1000,
    readiness_cost := 800, usage_cost_per_hour := 150, efficiency_gain := 0.60,
    response_time_reduction := 0.5, lifespan := 4, quantity_min := 1, quantity_max := 4 }

def portable_gps : Equipment :=
  { name := "便携式GPS导航器", acquisition_cost := 3000, maintenance_cost := 300,
    readiness_cost := 200, usage_cost_per_hour := 50, efficiency_gain := 0.45,
    response_time_reduction := 0.35, lifespan := 3, quantity_min := 3, quantity_max := 8 }

def offroad_vehicle : Equipment :=
  { name := "越野车辆", acquisition_cost := 300000, maintenance_cost := 30000,
    readiness_cost := 10000, usage_cost_per_hour := 500, efficiency_gain := 0.70,
    response_time_reduction := 0.65, lifespan := 8, quantity_min := 0, quantity_max := 2 }

/-- `self.control_equipment`, in the source's insertion order. -/
def control_equipment : List (String × Equipment) :=
  [("backup_drone", backup_drone), ("thermal_camera", thermal_camera),
   ("gps_tracker", gps_tracker), ("satellite_comm", satellite_comm)]

/-- `self.rescue_equipment`, in the source's insertion order. -/
def rescue_equipment : List (String × Equipment) :=
  [("rf_detector", rf_detector), ("portable_gps", portable_gps),
   ("offroad_vehicle", offroad_vehicle)]

/-- The key lookup pattern used throughout the source:
`if eq_type in self.control_equipment: ... else: self.rescue_equipment[eq_type]`;
`none` models the `KeyError` raised when the key is in neither group. -/
def lookupEquipment (k : String) : Option Equipment :=
  match control_equipment.lookup k with
  | some eq => some eq
  | none => rescue_equipment.lookup k

/-- The only failure the code produces: a `KeyError` on an equipment key
absent from both groups. -/
inductive PrepError where
  | UnknownItem (key : String)
deriving DecidableEq

/-- The dictionary returned by `calculate_annual_cost`. -/
structure CostBreakdown where
  acquisition : ℚ
  maintenance : ℚ
  readiness : ℚ
  usage : ℚ
  total : ℚ
deriving DecidableEq

/-- Body of `calculate_annual_cost` once the equipment record is in hand. -/
def costBreakdownOf (eq : Equipment) (quantity : ℚ) (usage_hours : ℚ) : CostBreakdown :=
  let annual_acquisition := eq.acquisition_cost / eq.lifespan
  let annual_maintenance := eq.maintenance_cost
  let annual_readiness := eq.readiness_cost
  let annual_usage := eq.usage_cost_per_hour * usage_hours
  { acquisition := annual_acquisition * quantity
    maintenance := annual_maintenance * quantity
    readiness := annual_readiness * quantity
    usage := annual_usage * quantity
    total := (annual_acquisition + annual_maintenance + annual_readiness + annual_usage) * quantity }

/-- `calculate_annual_cost(equipment_type, quantity, usage_hours=100)`.
The Python default `usage_hours=100` is passed explicitly at call sites. -/
def calculate_annual_cost (equipment_type : String) (quantity : ℚ) (usage_hours : ℚ) :
    Except PrepError CostBreakdown :=
  match lookupEquipment equipment_type with
  | some eq => .ok (costBreakdownOf eq quantity usage_hours)
  | none => .error (.UnknownItem equipment_type)

/-- The dictionary returned by `calculate_efficiency_score`. -/
structure EfficiencyMetrics where
  efficiency_score : ℚ
  response_improvement : ℚ
  overall_score : ℚ
deriving DecidableEq

/-- The accumulation loop of `calculate_efficiency_score`: total efficiency and
total response reduction, failing at the first unknown key. -/
def effSums : List (String × ℚ) → Except PrepError (ℚ × ℚ)
  | [] => .ok (0, 0)
  | (k, q) :: rest =>
    match lookupEquipment k with
    | none => .error (.UnknownItem k)
    | some eq =>
      match effSums rest with
      | .error e => .error e
      | .ok (te, tr) => .ok (eq.efficiency_gain * q + te, eq.response_time_reduction * q + tr)

/-- `calculate_efficiency_score(equipment_config, usage_hours=100)`; the
`usage_hours` argument is unused in the source body. -/
def calculate_efficiency_score (equipment_config : List (String × ℚ)) :
    Except PrepError EfficiencyMetrics :=
  match effSums equipment_config with
  | .error e => .error e
  | .ok (te, tr) =>
    .ok { efficiency_score := te, response_improvement := tr,
          overall_score := te * 0.6 + tr * 0.4 }

/-- `all_equipment = {**self.control_equipment, **self.rescue_equipment}`:
the two groups have no key in common, so the merge is concatenation in
insertion order. -/
def all_equipment : List (String × Equipment) := control_equipment ++ rescue_equipment

/-- `equipment_list = list(all_equipment.keys())`. -/
def equipment_list : List String := all_equipment.map Prod.fst

/-- The objective coefficient vector `c` that `optimize_equipment_selection`
builds for a given `priority` string, one coefficient per entry of
`equipment_list`; every equipment key is known, so
`self.calculate_annual_cost(eq, 1)['total']` is `(costBreakdownOf eq 1 100).total`. -/
def objCoeffs (priority : String) : List ℚ :=
  if priority = "cost" then
    all_equipment.map (fun p => (costBreakdownOf p.2 1 100).total)
  else if priority = "efficiency" then
    all_equipment.map (fun p => -(p.2.efficiency_gain * 10000))
  else
    all_equipment.map (fun p =>
      (costBreakdownOf p.2 1 100).total - p.2.efficiency_gain * 5000)

/-- The single row of `A_ub`: per-unit annual cost (at the reference 100 usage
hours) of each item of `equipment_list`. -/
def budgetRow : List ℚ := all_equipment.map (fun p => (costBreakdownOf p.2 1 100).total)

/-- The `bounds` list: `(quantity_min, quantity_max)` per item of `equipment_list`. -/
def quantityBounds : List (ℤ × ℤ) :=
  all_equipment.map (fun p => (p.2.quantity_min, p.2.quantity_max))

/-- The external `scipy.optimize.linprog` call, abstracted: it receives the
objective coefficients, the budget-constraint row, the budget bound and the
integer variable bounds, and returns `some x` on success (`result.x`) or
`none` on failure (`result.success == False`). -/
def Solver : Type := List ℚ → List ℚ → ℚ → List (ℤ × ℤ) → Option (List ℚ)

/-- Python's `int(round(x))` on a rational: round half to even. -/
def pyRound (x : ℚ) : ℤ :=
  if x - ⌊x⌋ < 1/2 then ⌊x⌋
  else if 1/2 < x - ⌊x⌋ then ⌊x⌋ + 1
  else if ⌊x⌋ % 2 = 0 then ⌊x⌋ else ⌊x⌋ + 1

/-- `get_fallback_solution(budget)`: the three fixed budget-tiered bundles. -/
def get_fallback_solution (budget : ℚ) : List (String × ℤ) :=
  if budget < 100000 then
    [("backup_drone", 2), ("gps_tracker", 5), ("portable_gps", 4)]
  else if budget < 300000 then
    [("backup_drone", 3), ("gps_tracker", 8), ("thermal_camera", 1),
     ("satellite_comm", 1), ("rf_detector", 2), ("portable_gps", 6)]
  else
    [("backup_drone", 4), ("gps_tracker", 10), ("thermal_camera", 2),
     ("satellite_comm", 2), ("rf_detector", 3), ("portable_gps", 8),
     ("offroad_vehicle", 1)]

/-- `optimize_equipment_selection(budget_constraint, priority='balanced')`.
On solver success the returned dictionary keeps
`equipment_list[i] -> int(round(result.x[i]))` exactly for the indices with
`result.x[i] > 0`; on solver failure it returns the fallback plan. -/
def optimize_equipment_selection (solver : Solver) (budget_constraint : ℚ)
    (priority : String) : List (String × ℤ) :=
  match solver (objCoeffs priority) budgetRow budget_constraint quantityBounds with
  | some xs =>
    (equipment_list.zip xs).filterMap
      (fun p => if 0 < p.2 then some (p.1, pyRound p.2) else none)
  | none => get_fallback_solution budget_constraint

/-- The dictionary returned by `generate_cost_breakdown`. -/
structure CostAnalysis where
  annual_breakdown : List (String × CostBreakdown)
  total_annual_cost : ℚ
  total_5year_cost : ℚ
  efficiency_metrics : EfficiencyMetrics
deriving DecidableEq

/-- The accumulation loop of `generate_cost_breakdown`: per-item cost data and
total annual cost over the entries with `quantity > 0`, failing at the first
unknown key among those entries. -/
def costLoop : List (String × ℚ) → Except PrepError (List (String × CostBreakdown) × ℚ)
  | [] => .ok ([], 0)
  | (k, q) :: rest =>
    if 0 < q then
      match calculate_annual_cost k q 100 with
      | .error e => .error e
      | .ok cb =>
        match costLoop rest with
        | .error e => .error e
        | .ok (data, tot) => .ok ((k, cb) :: data, cb.total + tot)
    else costLoop rest

/-- `generate_cost_breakdown(equipment_config, years=5)`; the Python default
`years=5` is passed explicitly at call sites.  The efficiency metrics are
computed over the whole `equipment_config`, not only the entries with
positive quantity. -/
def generate_cost_breakdown (equipment_config : List (String × ℚ)) (years : ℚ) :
    Except PrepError CostAnalysis :=
  match costLoop equipment_config with
  | .error e => .error e
  | .ok (cost_data, total_annual_cost) =>
    match calculate_efficiency_score equipment_config with
    | .error e => .error e
    | .ok metrics =>
      .ok { annual_breakdown := cost_data
            total_annual_cost := total_annual_cost
            total_5year_cost := total_annual_cost * years
            efficiency_metrics := metrics }

/-- Per-unit annual cost of a key at the reference 100 usage hours (`0` is a
junk value on unknown keys, never reached in the statements below): the
quantity used by the spec's budget-constraint formula. -/
def unitTotal (k : String) : ℚ :=
  match lookupEquipment k with
  | some eq => (costBreakdownOf eq 1 100).total
  | none => 0

/-- Total annual cost of a quantity assignment per the spec's constraint
formula: sum over items of per-unit annual cost (at 100 usage hours) times
quantity. -/
def planAnnualCost (plan : List (String × ℤ)) : ℚ :=
  (plan.map (fun p => unitTotal p.1 * (p.2 : ℚ))).sum

/-- Dot product of two coefficient lists, as `linprog` applies `A_ub` to `x`. -/
def dot (a b : List ℚ) : ℚ := ((a.zip b).map (fun p => p.1 * p.2)).sum

/-- Whether an `Except` result models a normal Python return. -/
def exceptOk {α : Type} : Except PrepError α → Bool
  | .ok _ => true
  | .error _ => false

/-- Efficiency gain of a key (`0` junk value on unknown keys, only used under
a known-key hypothesis). -/
def gainOf (k : String) : ℚ :=
  match lookupEquipment k with
  | some eq => eq.efficiency_gain
  | none => 0

/-- Response-time reduction of a key (`0` junk value on unknown keys, only
used under a known-key hypothesis). -/
def respOf (k : String) : ℚ :=
  match lookupEquipment k with
  | some eq => eq.response_time_reduction
  | none => 0

/-- The integrality-and-bounds contract a successful `linprog` call (with
`integrality=1` and the given `bounds`) guarantees for one catalog-item /
solution-component pair. -/
def pairFeasible (p : (String × Equipment) × ℚ) : Prop :=
  ∃ m : ℤ, p.2 = (m : ℚ) ∧ p.1.2.quantity_min ≤ m ∧ m ≤ p.1.2.quantity_max

/-- Rounding an integral rational is the identity. -/
theorem pyRound_intCast (m : ℤ) : pyRound ((m : ℚ)) = m := by
  norm_num [pyRound]

/-- A successful association-list lookup returns an entry of the list. -/
theorem mem_of_lookup_eq_some {l : List (String × Equipment)} {k : String}
    {v : Equipment} (h : l.lookup k = some v) : (k, v) ∈ l := by
  induction l with
  | nil => simp [List.lookup] at h
  | cons p t ih =>
    rw [List.lookup] at h
    cases hkp : (k == p.1) with
    | true =>
      rw [hkp] at h
      cases h
      have : k = p.1 := eq_of_beq hkp
      subst this
      exact List.mem_cons_self _ _
    | false =>
      rw [hkp] at h
      exact List.mem_cons_of_mem _ (ih h)

/-- A key the source can look up denotes an entry of the merged catalog. -/
theorem lookupEquipment_mem {k : String} {eq : Equipment}
    (h : lookupEquipment k = some eq) : (k, eq) ∈ all_equipment := by
  unfold lookupEquipment at h
  unfold all_equipment
  cases hc : control_equipment.lookup k with
  | some v =>
    rw [hc] at h
    cases h
    exact List.mem_append.mpr (Or.inl (mem_of_lookup_eq_some hc))
  | none =>
    rw [hc] at h
    exact List.mem_append.mpr (Or.inr (mem_of_lookup_eq_some h))

/-- Every entry of the merged catalog is found by the source's lookup pattern. -/
theorem all_keys : ∀ p ∈ all_equipment, lookupEquipment p.1 = some p.2 := by
  intro p hp
  simp only [all_equipment, control_equipment, rescue_equipment, List.cons_append,
    List.nil_append, List.mem_cons, List.not_mem_nil, or_false] at hp
  rcases hp with rfl | rfl | rfl | rfl | rfl | rfl | rfl <;> with_unfolding_all rfl

/-- Every catalog item has strictly positive efficiency gain and
response-time reduction. -/
theorem all_gain_pos : ∀ p ∈ all_equipment,
    0 < p.2.efficiency_gain ∧ 0 < p.2.response_time_reduction := by
  intro p hp
  simp only [all_equipment, control_equipment, rescue_equipment, List.cons_append,
    List.nil_append, List.mem_cons, List.not_mem_nil, or_false] at hp
  rcases hp with rfl | rfl | rfl | rfl | rfl | rfl | rfl <;>
    norm_num [backup_drone, thermal_camera, gps_tracker, satellite_comm,
      rf_detector, portable_gps, offroad_vehicle]

/-- Every catalog item has a non-negative minimum quantity. -/
theorem all_min_nonneg : ∀ p ∈ all_equipment, 0 ≤ p.2.quantity_min := by
  intro p hp
  simp only [all_equipment, control_equipment, rescue_equipment, List.cons_append,
    List.nil_append, List.mem_cons, List.not_mem_nil, or_false] at hp
  rcases hp with rfl | rfl | rfl | rfl | rfl | rfl | rfl <;>
    norm_num [backup_drone, thermal_camera, gps_tracker, satellite_comm,
      rf_detector, portable_gps, offroad_vehicle]

/-- On a configuration whose keys are all known, the efficiency loop returns
the two quantity-weighted sums. -/
theorem effSums_eq_of_known (config : List (String × ℚ))
    (h : ∀ p ∈ config, (lookupEquipment p.1).isSome) :
    effSums config = .ok ((config.map (fun p => gainOf p.1 * p.2)).sum,
                          (config.map (fun p => respOf p.1 * p.2)).sum) := by
  induction config with
  | nil => simp [effSums]
  | cons hd tl ih =>
    obtain ⟨k, q⟩ := hd
    obtain ⟨eq, heq⟩ :=
      Option.isSome_iff_exists.mp (h (k, q) (List.mem_cons_self _ _))
    have ih' := ih (fun p hp => h p (List.mem_cons_of_mem _ hp))
    simp only [effSums, heq, ih', List.map_cons, List.sum_cons, gainOf, respOf]

/-- On a configuration containing an unknown key, the efficiency loop raises
`UnknownItem`. -/
theorem effSums_error_of_unknown (config : List (String × ℚ))
    (h : ∃ p ∈ config, lookupEquipment p.1 = none) :
    ∃ k, effSums config = .error (.UnknownItem k) := by
  induction config with
  | nil => simp at h
  | cons hd tl ih =>
    obtain ⟨k, q⟩ := hd
    by_cases hk : lookupEquipment k = none
    · exact ⟨k, by simp only [effSums, hk]⟩
    · obtain ⟨eq, heq⟩ := Option.ne_none_iff_exists'.mp hk
      have htl : ∃ p ∈ tl, lookupEquipment p.1 = none := by
        obtain ⟨p, hp, hpn⟩ := h
        rcases List.mem_cons.mp hp with rfl | hmem
        · exact absurd hpn hk
        · exact ⟨p, hmem, hpn⟩
      obtain ⟨k', hk'⟩ := ih htl
      exact ⟨k', by simp only [effSums, heq, hk']⟩

/-- `calculate_efficiency_score` on an all-known configuration, with the three
returned fields made explicit. -/
theorem score_eq_of_known (config : List (String × ℚ))
    (h : ∀ p ∈ config, (lookupEquipment p.1).isSome) :
    calculate_efficiency_score config =
      .ok { efficiency_score := (config.map (fun p => gainOf p.1 * p.2)).sum
            response_improvement := (config.map (fun p => respOf p.1 * p.2)).sum
            overall_score := (config.map (fun p => gainOf p.1 * p.2)).sum * 0.6
              + (config.map (fun p => respOf p.1 * p.2)).sum * 0.4 } := by
  simp only [calculate_efficiency_score, effSums_eq_of_known config h]

/-- The cost loop returns normally when every positive-quantity entry has a
known key. -/
theorem costLoop_ok_of_known (config : List (String × ℚ))
    (h : ∀ p ∈ config, 0 < p.2 → (lookupEquipment p.1).isSome) :
    ∃ v, costLoop config = .ok v := by
  induction config with
  | nil => exact ⟨([], 0), rfl⟩
  | cons hd tl ih =>
    obtain ⟨k, q⟩ := hd
    obtain ⟨⟨data, tot⟩, htl⟩ := ih (fun p hp hq => h p (List.mem_cons_of_mem _ hp) hq)
    by_cases hq : 0 < q
    · obtain ⟨eq, heq⟩ :=
        Option.isSome_iff_exists.mp (h (k, q) (List.mem_cons_self _ _) hq)
      refine ⟨((k, costBreakdownOf eq q 100) :: data, (costBreakdownOf eq q 100).total + tot), ?_⟩
      simp only [costLoop, if_pos hq, calculate_annual_cost, heq, htl]
    · exact ⟨(data, tot), by simp only [costLoop, if_neg hq, htl]⟩

/-- Inserting a non-positive-quantity entry anywhere in the configuration
leaves the cost loop's result unchanged. -/
theorem costLoop_skip (pre post : List (String × ℚ)) (k : String) (q : ℚ)
    (hq : ¬ 0 < q) :
    costLoop (pre ++ (k, q) :: post) = costLoop (pre ++ post) := by
  induction pre with
  | nil => simp only [List.nil_append, costLoop, if_neg hq]
  | cons hd tl ih =>
    obtain ⟨k0, q0⟩ := hd
    simp only [List.cons_append, costLoop, List.append_eq, ih]

/-- On solver success, the returned plan is the filter-map of the catalog
zipped with the solution vector. -/
theorem optimize_some_eq (solver : Solver) (budget : ℚ) (priority : String)
    (xs : List ℚ)
    (hsolve : solver (objCoeffs priority) budgetRow budget quantityBounds = some xs) :
    optimize_equipment_selection solver budget priority =
      (all_equipment.zip xs).filterMap
        (fun p => if 0 < p.2 then some (p.1.1, pyRound p.2) else none) := by
  have h1 : optimize_equipment_selection solver budget priority =
      (equipment_list.zip xs).filterMap
        (fun p => if 0 < p.2 then some (p.1, pyRound p.2) else none) := by
    unfold optimize_equipment_selection
    rw [hsolve]
  rw [h1]
  unfold equipment_list
  rw [List.zip_map_left, List.filterMap_map]
  rfl

/-- Every entry of the post-processed plan comes from a catalog pair within its
item's quantity bounds. -/
theorem zplan_bounds (pairs : List ((String × Equipment) × ℚ))
    (h : ∀ p ∈ pairs, pairFeasible p) :
    ∀ kq ∈ pairs.filterMap
        (fun p => if 0 < p.2 then some (p.1.1, pyRound p.2) else none),
      ∃ eq, (kq.1, eq) ∈ pairs.map Prod.fst
        ∧ eq.quantity_min ≤ kq.2 ∧ kq.2 ≤ eq.quantity_max := by
  intro kq hkq
  obtain ⟨p, hp, hfp⟩ := List.mem_filterMap.mp hkq
  by_cases h0 : 0 < p.2
  · rw [if_pos h0] at hfp
    obtain ⟨m, hm, h1, h2⟩ := h p hp
    cases hfp
    refine ⟨p.1.2, List.mem_map_of_mem _ hp, ?_, ?_⟩
    · rw [hm, pyRound_intCast]; exact h1
    · rw [hm, pyRound_intCast]; exact h2
  · rw [if_neg h0] at hfp
    exact absurd hfp (by simp)

/-- The post-processed plan's annual cost equals the solver vector's cost under
the budget row, provided the vector is integral within bounds and all minimum
quantities are non-negative. -/
theorem zplan_cost (pairs : List ((String × Equipment) × ℚ))
    (h : ∀ p ∈ pairs, pairFeasible p ∧ 0 ≤ p.1.2.quantity_min)
    (hkeys : ∀ p ∈ pairs, lookupEquipment p.1.1 = some p.1.2) :
    planAnnualCost (pairs.filterMap
        (fun p => if 0 < p.2 then some (p.1.1, pyRound p.2) else none))
      = (pairs.map (fun p => (costBreakdownOf p.1.2 1 100).total * p.2)).sum := by
  induction pairs with
  | nil => simp [planAnnualCost]
  | cons hd tl ih =>
    have ih' := ih (fun p hp => h p (List.mem_cons_of_mem _ hp))
      (fun p hp => hkeys p (List.mem_cons_of_mem _ hp))
    obtain ⟨⟨m, hm, hmin, hmax⟩, hminpos⟩ := h hd (List.mem_cons_self _ _)
    have hkey := hkeys hd (List.mem_cons_self _ _)
    have hunit : unitTotal hd.1.1 = (costBreakdownOf hd.1.2 1 100).total := by
      unfold unitTotal; rw [hkey]
    by_cases h0 : 0 < hd.2
    · simp only [List.filterMap_cons, if_pos h0, planAnnualCost, List.map_cons,
        List.sum_cons] at ih' ⊢
      rw [ih', hunit, hm, pyRound_intCast]
    · have hz : hd.2 = 0 := by
        rw [hm] at h0 ⊢
        have : m ≤ 0 := by exact_mod_cast not_lt.mp h0
        have : m = 0 := le_antisymm this (le_trans hminpos hmin)
        simp [this]
      simp only [List.filterMap_cons, if_neg h0, List.map_cons, List.sum_cons] at ih' ⊢
      rw [ih', hz, mul_zero, zero_add]

/-- Applying the budget row to a solution vector, pairwise over the catalog. -/
theorem dot_budgetRow_zip (xs : List ℚ) :
    dot budgetRow xs =
      ((all_equipment.zip xs).map
        (fun p => (costBreakdownOf p.1.2 1 100).total * p.2)).sum := by
  unfold dot budgetRow
  rw [List.zip_map_left, List.map_map]
  rfl

/-- Claim C2, counterexample: `calculate_annual_cost` on the catalog key
`gps_tracker` with quantity `-1` (strictly negative) returns normally — with
every component scaled by the negative quantity — instead of failing with an
invalid-quantity error; the code performs no quantity validation. -/
theorem C2_counterexample :
    calculate_annual_cost "gps_tracker" (-1) 100 =
      .ok { acquisition := -1000, maintenance := -300, readiness := -200,
            usage := -5000, total := -6500 } := by
  with_unfolding_all rfl

/-- Claim C2, amended: `calculate_annual_cost` performs no quantity
validation.  Whether it returns normally depends only on whether the key is in
the catalog, identically for every quantity (negative quantities included) and
every usage-hours value; there is no invalid-quantity failure. -/
theorem C2_amended_thm (k : String) (q q' usage_hours : ℚ) :
    exceptOk (calculate_annual_cost k q usage_hours) = (lookupEquipment k).isSome
  ∧ exceptOk (calculate_annual_cost k q usage_hours)
      = exceptOk (calculate_annual_cost k q' usage_hours) := by
  unfold calculate_annual_cost
  cases lookupEquipment k <;> simp [exceptOk]

/-- Claim C4: `get_fallback_solution` depends only on the budget and returns
exactly the three fixed bundles of the source, keyed by the thresholds
100,000 and 300,000. -/
theorem C4_thm (budget : ℚ) :
    (budget < 100000 → get_fallback_solution budget =
      [("backup_drone", 2), ("gps_tracker", 5), ("portable_gps", 4)])
  ∧ (100000 ≤ budget → budget < 300000 → get_fallback_solution budget =
      [("backup_drone", 3), ("gps_tracker", 8), ("thermal_camera", 1),
       ("satellite_comm", 1), ("rf_detector", 2), ("portable_gps", 6)])
  ∧ (300000 ≤ budget → get_fallback_solution budget =
      [("backup_drone", 4), ("gps_tracker", 10), ("thermal_camera", 2),
       ("satellite_comm", 2), ("rf_detector", 3), ("portable_gps", 8),
       ("offroad_vehicle", 1)]) := by
  unfold get_fallback_solution
  refine ⟨fun h => ?_, fun h1 h2 => ?_, fun h => ?_⟩
  · rw [if_pos h]
  · rw [if_neg (by linarith), if_pos h2]
  · rw [if_neg (by linarith), if_neg (by linarith)]

/-- Witness for C4 at budgets 80,000, 200,000 and 500,000. -/
theorem C4_witness :
    get_fallback_solution 80000 =
      [("backup_drone", 2), ("gps_tracker", 5), ("portable_gps", 4)]
  ∧ get_fallback_solution 200000 =
      [("backup_drone", 3), ("gps_tracker", 8), ("thermal_camera", 1),
       ("satellite_comm", 1), ("rf_detector", 2), ("portable_gps", 6)]
  ∧ get_fallback_solution 500000 =
      [("backup_drone", 4), ("gps_tracker", 10), ("thermal_camera", 2),
       ("satellite_comm", 2), ("rf_detector", 3), ("portable_gps", 8),
       ("offroad_vehicle", 1)] :=
  ⟨(C4_thm 80000).1 (by norm_num),
   (C4_thm 200000).2.1 (by norm_num) (by norm_num),
   (C4_thm 500000).2.2 (by norm_num)⟩

/-- Claim C5: the objective coefficient per catalog item is the per-unit
annual cost at 100 usage hours in mode `cost`, `-(efficiency_gain * 10000)`
in mode `efficiency`, and the per-unit annual cost minus
`efficiency_gain * 5000` in mode `balanced`; the resulting coefficient
vectors over the catalog order are also computed explicitly. -/
theorem C5_thm :
    objCoeffs "cost" = all_equipment.map (fun p => (costBreakdownOf p.2 1 100).total)
  ∧ objCoeffs "efficiency" = all_equipment.map (fun p => -(p.2.efficiency_gain * 10000))
  ∧ objCoeffs "balanced" = all_equipment.map (fun p =>
      (costBreakdownOf p.2 1 100).total - p.2.efficiency_gain * 5000)
  ∧ objCoeffs "cost" = [66500, 23500, 6500, 28250, 21800, 6500, 127500]
  ∧ objCoeffs "efficiency" = [-8500, -6500, -7500, -5500, -6000, -4500, -7000]
  ∧ objCoeffs "balanced" = [62250, 20250, 2750, 25500, 18800, 4250, 124000] :=
  ⟨by with_unfolding_all rfl, by with_unfolding_all rfl, by with_unfolding_all rfl,
   by with_unfolding_all rfl, by with_unfolding_all rfl, by with_unfolding_all rfl⟩

/-- Claim C8: for every catalog item, every usage-hours value and quantities
`q1, q2 ≥ 0`, the annual-cost total at `q1 + q2` is exactly the sum of the
totals at `q1` and at `q2`. -/
theorem C8_thm (k : String) (eq : Equipment) (hk : lookupEquipment k = some eq)
    (usage_hours q1 q2 : ℚ) (h1 : 0 ≤ q1) (h2 : 0 ≤ q2) :
    ∃ c c1 c2 : CostBreakdown,
      calculate_annual_cost k (q1 + q2) usage_hours = .ok c
    ∧ calculate_annual_cost k q1 usage_hours = .ok c1
    ∧ calculate_annual_cost k q2 usage_hours = .ok c2
    ∧ c.total = c1.total + c2.total := by
  unfold calculate_annual_cost
  rw [hk]
  exact ⟨_, _, _, rfl, rfl, rfl, by simp only [costBreakdownOf]; ring⟩

/-- Witness for C8: `gps_tracker` at 100 usage hours with `q1 = 2`, `q2 = 3`. -/
theorem C8_witness :
    ∃ c c1 c2 : CostBreakdown,
      calculate_annual_cost "gps_tracker" (2 + 3) 100 = .ok c
    ∧ calculate_annual_cost "gps_tracker" 2 100 = .ok c1
    ∧ calculate_annual_cost "gps_tracker" 3 100 = .ok c2
    ∧ c.total = c1.total + c2.total :=
  C8_thm "gps_tracker" gps_tracker (by with_unfolding_all rfl) 100 2 3
    (by norm_num) (by norm_num)

/-- Claim C9: any priority string other than `cost` and `efficiency` — not
only `balanced` — selects the balanced objective, so
`optimize_equipment_selection` behaves identically to mode `balanced` and no
error is raised for unknown modes. -/
theorem C9_thm (solver : Solver) (budget : ℚ) (mode : String)
    (h1 : mode ≠ "cost") (h2 : mode ≠ "efficiency") :
    optimize_equipment_selection solver budget mode =
      optimize_equipment_selection solver budget "balanced" := by
  have hc : objCoeffs mode = objCoeffs "balanced" := by
    unfold objCoeffs
    rw [if_neg h1, if_neg h2, if_neg (by decide), if_neg (by decide)]
  unfold optimize_equipment_selection
  rw [hc]

/-- Witness for C9 with the unrecognized mode string `speed`. -/
theorem C9_witness :
    optimize_equipment_selection (fun _ _ _ _ => none) 80000 "speed" =
      optimize_equipment_selection (fun _ _ _ _ => none) 80000 "balanced" :=
  C9_thm (fun _ _ _ _ => none) 80000 "speed" (by decide) (by decide)

/-- Claim C3: an assignment containing a key absent from both catalog groups
makes `calculate_efficiency_score` and `generate_cost_breakdown` fail with an
`UnknownItem` error; an assignment whose keys are all in the catalog makes
both return normally. -/
theorem C3_thm (config : List (String × ℚ)) (years : ℚ) :
    ((∀ p ∈ config, (lookupEquipment p.1).isSome) →
      (∃ m, calculate_efficiency_score config = .ok m)
      ∧ (∃ r, generate_cost_breakdown config years = .ok r))
  ∧ ((∃ p ∈ config, lookupEquipment p.1 = none) →
      (∃ k, calculate_efficiency_score config = .error (.UnknownItem k))
      ∧ (∃ k, generate_cost_breakdown config years = .error (.UnknownItem k))) := by
  constructor
  · intro h
    have hscore := score_eq_of_known config h
    obtain ⟨⟨data, tot⟩, hcl⟩ := costLoop_ok_of_known config (fun p hp _ => h p hp)
    refine ⟨⟨_, hscore⟩,
      ⟨{ annual_breakdown := data, total_annual_cost := tot,
         total_5year_cost := tot * years,
         efficiency_metrics :=
           { efficiency_score := (config.map (fun p => gainOf p.1 * p.2)).sum
             response_improvement := (config.map (fun p => respOf p.1 * p.2)).sum
             overall_score := (config.map (fun p => gainOf p.1 * p.2)).sum * 0.6
               + (config.map (fun p => respOf p.1 * p.2)).sum * 0.4 } }, ?_⟩⟩
    unfold generate_cost_breakdown
    rw [hcl, hscore]
  · intro h
    obtain ⟨k, hk⟩ := effSums_error_of_unknown config h
    have hscore : calculate_efficiency_score config = .error (.UnknownItem k) := by
      unfold calculate_efficiency_score
      rw [hk]
    refine ⟨⟨k, hscore⟩, ?_⟩
    cases hcl : costLoop config with
    | error e =>
      obtain ⟨k'⟩ := e
      exact ⟨k', by unfold generate_cost_breakdown; rw [hcl]⟩
    | ok v =>
      obtain ⟨data, tot⟩ := v
      exact ⟨k, by unfold generate_cost_breakdown; rw [hcl, hscore]⟩

/-- Witness for C3: an all-catalog assignment returns normally, an assignment
naming `mystery_box` fails with `UnknownItem`, in both functions. -/
theorem C3_witness :
    ((∃ m, calculate_efficiency_score [("gps_tracker", (2 : ℚ))] = .ok m)
      ∧ (∃ r, generate_cost_breakdown [("gps_tracker", (2 : ℚ))] 5 = .ok r))
  ∧ ((∃ k, calculate_efficiency_score [("mystery_box", (1 : ℚ))] = .error (.UnknownItem k))
      ∧ (∃ k, generate_cost_breakdown [("mystery_box", (1 : ℚ))] 5 = .error (.UnknownItem k))) := by
  constructor
  · refine (C3_thm [("gps_tracker", (2 : ℚ))] 5).1 ?_
    intro p hp
    simp only [List.mem_cons, List.not_mem_nil, or_false] at hp
    subst hp
    with_unfolding_all rfl
  · refine (C3_thm [("mystery_box", (1 : ℚ))] 5).2 ?_
    exact ⟨("mystery_box", 1), List.mem_cons_self _ _, by with_unfolding_all rfl⟩

/-- Claim C7: on an all-catalog assignment, `calculate_efficiency_score`
returns the quantity-weighted sums of `efficiency_gain` and
`response_time_reduction`, its overall score is exactly
`0.6 * efficiency_score + 0.4 * response_improvement`, and each returned field
is linear in each entry's quantity independently (inserting an entry `(k, q)`
anywhere shifts the sums by exactly `gain k * q` and `resp k * q`). -/
theorem C7_thm :
    (∀ config : List (String × ℚ), (∀ p ∈ config, (lookupEquipment p.1).isSome) →
      ∃ m, calculate_efficiency_score config = .ok m
        ∧ m.efficiency_score = (config.map (fun p => gainOf p.1 * p.2)).sum
        ∧ m.response_improvement = (config.map (fun p => respOf p.1 * p.2)).sum
        ∧ m.overall_score = 0.6 * m.efficiency_score + 0.4 * m.response_improvement)
  ∧ (∀ pre post : List (String × ℚ), ∀ k : String, ∀ q : ℚ, ∀ eq : Equipment,
      lookupEquipment k = some eq →
      (∀ p ∈ pre ++ post, (lookupEquipment p.1).isSome) →
      ∃ m m', calculate_efficiency_score (pre ++ (k, q) :: post) = .ok m
        ∧ calculate_efficiency_score (pre ++ post) = .ok m'
        ∧ m.efficiency_score = m'.efficiency_score + eq.efficiency_gain * q
        ∧ m.response_improvement = m'.response_improvement + eq.response_time_reduction * q
        ∧ m.overall_score = 0.6 * m.efficiency_score + 0.4 * m.response_improvement) := by
  constructor
  · intro config h
    exact ⟨_, score_eq_of_known config h, rfl, rfl, by simp only; ring⟩
  · intro pre post k q eq hk h
    have hfull : ∀ p ∈ pre ++ (k, q) :: post, (lookupEquipment p.1).isSome := by
      intro p hp
      rcases List.mem_append.mp hp with h1 | h2
      · exact h p (List.mem_append.mpr (Or.inl h1))
      · rcases List.mem_cons.mp h2 with rfl | h3
        · simp [hk]
        · exact h p (List.mem_append.mpr (Or.inr h3))
    refine ⟨_, _, score_eq_of_known _ hfull, score_eq_of_known _ h, ?_, ?_, by simp only; ring⟩
    · simp only [List.map_append, List.map_cons, List.sum_append, List.sum_cons]
      have hg : gainOf k = eq.efficiency_gain := by unfold gainOf; rw [hk]
      rw [hg]; ring
    · simp only [List.map_append, List.map_cons, List.sum_append, List.sum_cons]
      have hr : respOf k = eq.response_time_reduction := by unfold respOf; rw [hk]
      rw [hr]; ring

/-- Witness for C7: the sum form on the assignment
`{backup_drone: 1, gps_tracker: 2}` and the insertion form inserting
`(gps_tracker, 2)` after `(backup_drone, 1)`. -/
theorem C7_witness :
    (∃ m, calculate_efficiency_score [("backup_drone", (1 : ℚ)), ("gps_tracker", 2)] = .ok m
      ∧ m.efficiency_score =
          ([("backup_drone", (1 : ℚ)), ("gps_tracker", 2)].map (fun p => gainOf p.1 * p.2)).sum
      ∧ m.response_improvement =
          ([("backup_drone", (1 : ℚ)), ("gps_tracker", 2)].map (fun p => respOf p.1 * p.2)).sum
      ∧ m.overall_score = 0.6 * m.efficiency_score + 0.4 * m.response_improvement)
  ∧ (∃ m m',
      calculate_efficiency_score ([("backup_drone", (1 : ℚ))] ++ ("gps_tracker", 2) :: []) = .ok m
      ∧ calculate_efficiency_score ([("backup_drone", (1 : ℚ))] ++ []) = .ok m'
      ∧ m.efficiency_score = m'.efficiency_score + gps_tracker.efficiency_gain * 2
      ∧ m.response_improvement = m'.response_improvement + gps_tracker.response_time_reduction * 2
      ∧ m.overall_score = 0.6 * m.efficiency_score + 0.4 * m.response_improvement) := by
  constructor
  · refine C7_thm.1 [("backup_drone", (1 : ℚ)), ("gps_tracker", 2)] ?_
    intro p hp
    simp only [List.mem_cons, List.not_mem_nil, or_false] at hp
    rcases hp with rfl | rfl <;> with_unfolding_all rfl
  · refine C7_thm.2 [("backup_drone", (1 : ℚ))] [] "gps_tracker" 2 gps_tracker
      (by with_unfolding_all rfl) ?_
    intro p hp
    simp only [List.append_nil, List.mem_cons, List.not_mem_nil, or_false] at hp
    subst hp
    with_unfolding_all rfl

/-- Claim C10: `generate_cost_breakdown` excludes an entry with quantity ≤ 0
from the per-item breakdown, the total annual cost and the years-multiplied
total, while the efficiency metrics of the same result still include it; a
zero-quantity entry changes no cost figure, and a negative-quantity entry
strictly lowers all three efficiency scores without affecting any cost
figure. -/
theorem C10_thm (pre post : List (String × ℚ)) (k : String) (q years : ℚ)
    (eq : Equipment) (hk : lookupEquipment k = some eq)
    (hknown : ∀ p ∈ pre ++ post, (lookupEquipment p.1).isSome) (hq : q ≤ 0) :
    ∃ r r', generate_cost_breakdown (pre ++ (k, q) :: post) years = .ok r
      ∧ generate_cost_breakdown (pre ++ post) years = .ok r'
      ∧ r.annual_breakdown = r'.annual_breakdown
      ∧ r.total_annual_cost = r'.total_annual_cost
      ∧ r.total_5year_cost = r'.total_5year_cost
      ∧ r.efficiency_metrics.efficiency_score
          = r'.efficiency_metrics.efficiency_score + eq.efficiency_gain * q
      ∧ r.efficiency_metrics.response_improvement
          = r'.efficiency_metrics.response_improvement + eq.response_time_reduction * q
      ∧ (q < 0 →
          r.efficiency_metrics.efficiency_score < r'.efficiency_metrics.efficiency_score
        ∧ r.efficiency_metrics.response_improvement < r'.efficiency_metrics.response_improvement
        ∧ r.efficiency_metrics.overall_score < r'.efficiency_metrics.overall_score) := by
  have hfull : ∀ p ∈ pre ++ (k, q) :: post, (lookupEquipment p.1).isSome := by
    intro p hp
    rcases List.mem_append.mp hp with h1 | h2
    · exact hknown p (List.mem_append.mpr (Or.inl h1))
    · rcases List.mem_cons.mp h2 with rfl | h3
      · simp [hk]
      · exact hknown p (List.mem_append.mpr (Or.inr h3))
  obtain ⟨⟨data, tot⟩, hcl⟩ := costLoop_ok_of_known (pre ++ post) (fun p hp _ => hknown p hp)
  have hcl2 : costLoop (pre ++ (k, q) :: post) = .ok (data, tot) := by
    rw [costLoop_skip pre post k q (not_lt.mpr hq)]
    exact hcl
  have hg : gainOf k = eq.efficiency_gain := by unfold gainOf; rw [hk]
  have hr : respOf k = eq.response_time_reduction := by unfold respOf; rw [hk]
  have hpos := all_gain_pos (k, eq) (lookupEquipment_mem hk)
  refine ⟨{ annual_breakdown := data, total_annual_cost := tot,
            total_5year_cost := tot * years,
            efficiency_metrics :=
              { efficiency_score := ((pre ++ (k, q) :: post).map (fun p => gainOf p.1 * p.2)).sum
                response_improvement := ((pre ++ (k, q) :: post).map (fun p => respOf p.1 * p.2)).sum
                overall_score := ((pre ++ (k, q) :: post).map (fun p => gainOf p.1 * p.2)).sum * 0.6
                  + ((pre ++ (k, q) :: post).map (fun p => respOf p.1 * p.2)).sum * 0.4 } },
    { annual_breakdown := data, total_annual_cost := tot,
      total_5year_cost := tot * years,
      efficiency_metrics :=
        { efficiency_score := ((pre ++ post).map (fun p => gainOf p.1 * p.2)).sum
          response_improvement := ((pre ++ post).map (fun p => respOf p.1 * p.2)).sum
          overall_score := ((pre ++ post).map (fun p => gainOf p.1 * p.2)).sum * 0.6
            + ((pre ++ post).map (fun p => respOf p.1 * p.2)).sum * 0.4 } },
    ?_, ?_, rfl, rfl, rfl, ?_, ?_, ?_⟩
  · unfold generate_cost_breakdown
    rw [hcl2, score_eq_of_known _ hfull]
  · unfold generate_cost_breakdown
    rw [hcl, score_eq_of_known _ hknown]
  · simp only [List.map_append, List.map_cons, List.sum_append, List.sum_cons, hg]
    ring
  · simp only [List.map_append, List.map_cons, List.sum_append, List.sum_cons, hr]
    ring
  · intro hqneg
    have hgq : eq.efficiency_gain * q < 0 := mul_neg_of_pos_of_neg hpos.1 hqneg
    have hrq : eq.response_time_reduction * q < 0 := mul_neg_of_pos_of_neg hpos.2 hqneg
    simp only [List.map_append, List.map_cons, List.sum_append, List.sum_cons, hg, hr]
    refine ⟨by linarith, by linarith, by linarith⟩

/-- Witness for C10: inserting `(portable_gps, -1)` after `(gps_tracker, 2)`
with `years = 5`. -/
theorem C10_witness :
    ∃ r r', generate_cost_breakdown ([("gps_tracker", (2 : ℚ))] ++ ("portable_gps", -1) :: []) 5 = .ok r
      ∧ generate_cost_breakdown ([("gps_tracker", (2 : ℚ))] ++ []) 5 = .ok r'
      ∧ r.annual_breakdown = r'.annual_breakdown
      ∧ r.total_annual_cost = r'.total_annual_cost
      ∧ r.total_5year_cost = r'.total_5year_cost
      ∧ r.efficiency_metrics.efficiency_score
          = r'.efficiency_metrics.efficiency_score + portable_gps.efficiency_gain * (-1)
      ∧ r.efficiency_metrics.response_improvement
          = r'.efficiency_metrics.response_improvement + portable_gps.response_time_reduction * (-1)
      ∧ ((-1 : ℚ) < 0 →
          r.efficiency_metrics.efficiency_score < r'.efficiency_metrics.efficiency_score
        ∧ r.efficiency_metrics.response_improvement < r'.efficiency_metrics.response_improvement
        ∧ r.efficiency_metrics.overall_score < r'.efficiency_metrics.overall_score) := by
  refine C10_thm [("gps_tracker", (2 : ℚ))] [] "portable_gps" (-1) 5 portable_gps
    (by with_unfolding_all rfl) ?_ (by norm_num)
  intro p hp
  simp only [List.append_nil, List.mem_cons, List.not_mem_nil, or_false] at hp
  subst hp
  with_unfolding_all rfl

/-- Claim C1, counterexample: on the fallback path (solver reports failure)
at budget 80,000 and mode `balanced`, `optimize_equipment_selection` returns
the small fixed bundle, whose total annual cost per the constraint formula is
191,500 > 80,000, and which omits `satellite_comm` although that item's
minimum quantity is 1 — so neither the budget bound nor the per-item bounds
hold on the fallback path. -/
theorem C1_counterexample :
    optimize_equipment_selection (fun _ _ _ _ => none) 80000 "balanced"
      = [("backup_drone", 2), ("gps_tracker", 5), ("portable_gps", 4)]
  ∧ planAnnualCost (optimize_equipment_selection (fun _ _ _ _ => none) 80000 "balanced")
      = 191500
  ∧ ¬ planAnnualCost (optimize_equipment_selection (fun _ _ _ _ => none) 80000 "balanced")
      ≤ 80000
  ∧ (optimize_equipment_selection (fun _ _ _ _ => none) 80000 "balanced").lookup
      "satellite_comm" = none
  ∧ lookupEquipment "satellite_comm" = some satellite_comm
  ∧ satellite_comm.quantity_min = 1 := by
  have h1 : optimize_equipment_selection (fun _ _ _ _ => none) 80000 "balanced"
      = [("backup_drone", 2), ("gps_tracker", 5), ("portable_gps", 4)] := by
    with_unfolding_all rfl
  have h2 : planAnnualCost [("backup_drone", (2 : ℤ)), ("gps_tracker", 5), ("portable_gps", 4)]
      = 191500 := by
    with_unfolding_all rfl
  refine ⟨h1, ?_, ?_, ?_, by with_unfolding_all rfl, by with_unfolding_all rfl⟩
  · rw [h1]; exact h2
  · rw [h1, h2]; norm_num
  · rw [h1]; with_unfolding_all rfl

/-- Claim C1, amended: on the solver-success path, whenever the solver's
returned vector satisfies the contract of a successful integer solve —
integral components within each item's `[quantity_min, quantity_max]` bounds
and budget-row cost at most the budget — the returned assignment gives every
assigned item a quantity within that item's bounds and has total annual cost
(per the constraint formula at the reference 100 usage hours) at most the
budget.  On the fallback path the guarantee does not hold (see the
counterexample at budget 80,000). -/
theorem C1_amended_thm (solver : Solver) (budget : ℚ) (priority : String)
    (xs : List ℚ)
    (hsolve : solver (objCoeffs priority) budgetRow budget quantityBounds = some xs)
    (hfeas : ∀ p ∈ all_equipment.zip xs, pairFeasible p)
    (hbudget : dot budgetRow xs ≤ budget) :
    (∀ kq ∈ optimize_equipment_selection solver budget priority,
      ∃ eq, lookupEquipment kq.1 = some eq
        ∧ eq.quantity_min ≤ kq.2 ∧ kq.2 ≤ eq.quantity_max)
  ∧ planAnnualCost (optimize_equipment_selection solver budget priority) ≤ budget := by
  rw [optimize_some_eq solver budget priority xs hsolve]
  constructor
  · intro kq hkq
    obtain ⟨eq, hmem, hb1, hb2⟩ := zplan_bounds _ hfeas kq hkq
    obtain ⟨pr, hpr, hpr2⟩ := List.mem_map.mp hmem
    have hkey := all_keys pr.1 (List.of_mem_zip hpr).1
    rw [hpr2] at hkey
    exact ⟨eq, hkey, hb1, hb2⟩
  · have hz := zplan_cost (all_equipment.zip xs)
      (fun p hp => ⟨hfeas p hp, all_min_nonneg p.1 (List.of_mem_zip hp).1⟩)
      (fun p hp => all_keys p.1 (List.of_mem_zip hp).1)
    rw [hz, ← dot_budgetRow_zip]
    exact hbudget

/-- Witness for the amended C1: a solver double returning the integral vector
(1, 0, 2, 1, 1, 3, 0), which is within bounds and costs 149,050 ≤ 200,000. -/
theorem C1_amended_witness :
    (∀ kq ∈ optimize_equipment_selection
        (fun _ _ _ _ => some [1, 0, 2, 1, 1, 3, 0]) 200000 "balanced",
      ∃ eq, lookupEquipment kq.1 = some eq
        ∧ eq.quantity_min ≤ kq.2 ∧ kq.2 ≤ eq.quantity_max)
  ∧ planAnnualCost (optimize_equipment_selection
        (fun _ _ _ _ => some [1, 0, 2, 1, 1, 3, 0]) 200000 "balanced") ≤ 200000 := by
  refine C1_amended_thm (fun _ _ _ _ => some [1, 0, 2, 1, 1, 3, 0]) 200000 "balanced"
    [1, 0, 2, 1, 1, 3, 0] rfl ?_ ?_
  · intro p hp
    have hz : all_equipment.zip [(1 : ℚ), 0, 2, 1, 1, 3, 0] =
        [(("backup_drone", backup_drone), 1), (("thermal_camera", thermal_camera), 0),
         (("gps_tracker", gps_tracker), 2), (("satellite_comm", satellite_comm), 1),
         (("rf_detector", rf_detector), 1), (("portable_gps", portable_gps), 3),
         (("offroad_vehicle", offroad_vehicle), 0)] := rfl
    rw [hz] at hp
    simp only [List.mem_cons, List.not_mem_nil, or_false] at hp
    rcases hp with rfl | rfl | rfl | rfl | rfl | rfl | rfl
    · exact ⟨1, by norm_num [backup_drone]⟩
    · exact ⟨0, by norm_num [thermal_camera]⟩
    · exact ⟨2, by norm_num [gps_tracker]⟩
    · exact ⟨1, by norm_num [satellite_comm]⟩
    · exact ⟨1, by norm_num [rf_detector]⟩
    · exact ⟨3, by norm_num [portable_gps]⟩
    · exact ⟨0, by norm_num [offroad_vehicle]⟩
  · have hd : dot budgetRow [(1 : ℚ), 0, 2, 1, 1, 3, 0] = 149050 := by
      with_unfolding_all rfl
    rw [hd]
    norm_num

/-- Every catalog item has non-negative per-unit annual cost at the reference
100 usage hours. -/
theorem all_unit_nonneg : ∀ p ∈ all_equipment,
    0 ≤ (costBreakdownOf p.2 1 100).total := by
  intro p hp
  simp only [all_equipment, control_equipment, rescue_equipment, List.cons_append,
    List.nil_append, List.mem_cons, List.not_mem_nil, or_false] at hp
  rcases hp with rfl | rfl | rfl | rfl | rfl | rfl | rfl <;>
    norm_num [costBreakdownOf, backup_drone, thermal_camera, gps_tracker,
      satellite_comm, rf_detector, portable_gps, offroad_vehicle]

/-- Claim C6: whenever the solver reports failure, `optimize_equipment_selection`
returns the fallback plan for the budget instead of propagating an error; at
budget 80,000 this is the small bundle.  Moreover budget 80,000 really is
infeasible under the catalog's minimum-quantity bounds: every full-length
solution vector within the per-item bounds costs more than 80,000 under the
budget row. -/
theorem C6_thm (solver : Solver) (budget : ℚ) (priority : String)
    (hfail : solver (objCoeffs priority) budgetRow budget quantityBounds = none) :
    optimize_equipment_selection solver budget priority = get_fallback_solution budget
  ∧ (budget = 80000 →
      optimize_equipment_selection solver budget priority
        = [("backup_drone", 2), ("gps_tracker", 5), ("portable_gps", 4)])
  ∧ (∀ q : List ℚ, q.length = 7 →
      (∀ p ∈ all_equipment.zip q,
        (p.1.2.quantity_min : ℚ) ≤ p.2 ∧ p.2 ≤ (p.1.2.quantity_max : ℚ)) →
      (80000 : ℚ) < dot budgetRow q) := by
  have hopt : optimize_equipment_selection solver budget priority
      = get_fallback_solution budget := by
    unfold optimize_equipment_selection
    rw [hfail]
  refine ⟨hopt, ?_, ?_⟩
  · intro hb
    subst hb
    rw [hopt]
    with_unfolding_all rfl
  · intro q hlen hq
    have hfst : (all_equipment.zip q).map Prod.fst = all_equipment :=
      List.map_fst_zip _ _ (by rw [hlen]; decide)
    have hmapmin : (all_equipment.zip q).map
          (fun p => (costBreakdownOf p.1.2 1 100).total * (p.1.2.quantity_min : ℚ))
        = all_equipment.map
          (fun a => (costBreakdownOf a.2 1 100).total * (a.2.quantity_min : ℚ)) := by
      rw [show (fun p : (String × Equipment) × ℚ =>
          (costBreakdownOf p.1.2 1 100).total * (p.1.2.quantity_min : ℚ))
        = (fun a : String × Equipment =>
          (costBreakdownOf a.2 1 100).total * (a.2.quantity_min : ℚ)) ∘ Prod.fst from rfl]
      rw [← List.map_map, hfst]
    have hmin : ((all_equipment.zip q).map
          (fun p => (costBreakdownOf p.1.2 1 100).total * (p.1.2.quantity_min : ℚ))).sum
        = 149050 := by
      rw [hmapmin]
      with_unfolding_all rfl
    have hle : ((all_equipment.zip q).map
          (fun p => (costBreakdownOf p.1.2 1 100).total * (p.1.2.quantity_min : ℚ))).sum
        ≤ ((all_equipment.zip q).map
          (fun p => (costBreakdownOf p.1.2 1 100).total * p.2)).sum := by
      apply List.sum_le_sum
      intro p hp
      exact mul_le_mul_of_nonneg_left (hq p hp).1
        (all_unit_nonneg p.1 (List.of_mem_zip hp).1)
    rw [dot_budgetRow_zip]
    linarith

/-- Witness for C6: a failing solver double at budget 80,000 yields the small
bundle, and the minimum-quantity vector (1, 0, 2, 1, 1, 3, 0) already costs
more than 80,000. -/
theorem C6_witness :
    optimize_equipment_selection (fun _ _ _ _ => none) 80000 "cost"
      = get_fallback_solution 80000
  ∧ optimize_equipment_selection (fun _ _ _ _ => none) 80000 "cost"
      = [("backup_drone", 2), ("gps_tracker", 5), ("portable_gps", 4)]
  ∧ (80000 : ℚ) < dot budgetRow [1, 0, 2, 1, 1, 3, 0] := by
  have h := C6_thm (fun _ _ _ _ => none) 80000 "cost" rfl
  refine ⟨h.1, h.2.1 rfl, h.2.2 [1, 0, 2, 1, 1, 3, 0] rfl ?_⟩
  intro p hp
  have hz : all_equipment.zip [(1 : ℚ), 0, 2, 1, 1, 3, 0] =
      [(("backup_drone", backup_drone), 1), (("thermal_camera", thermal_camera), 0),
       (("gps_tracker", gps_tracker), 2), (("satellite_comm", satellite_comm), 1),
       (("rf_detector", rf_detector), 1), (("portable_gps", portable_gps), 3),
       (("offroad_vehicle", offroad_vehicle), 0)] := rfl
  rw [hz] at hp
  simp only [List.mem_cons, List.not_mem_nil, or_false] at hp
  rcases hp with rfl | rfl | rfl | rfl | rfl | rfl | rfl <;>
    norm_num [backup_drone, thermal_camera, gps_tracker, satellite_comm,
      rf_detector, portable_gps, offroad_vehicle]
